import Mathlib

/-!
Shallow embedding of the detection-normalization layer and the viewer
session reconnect logic of the videobase-pi frontend
(src/frontend/src/components/DeviceInfo.jsx and VideoStream.jsx).

JavaScript runtime values are modelled by `JSVal`: finite numbers are
rationals, `NaN` is its own constructor, and objects are association
lists.  Numeric-string coercion (e.g. `"5" - 1` evaluating to `4` in
JavaScript) is not modelled: in arithmetic positions a string is treated
as coercing to NaN, like any other non-numeric value; booleans and
`null` coerce to numbers as in JavaScript.
-/

namespace VideoBase

inductive JSVal where
  | num (q : ℚ)
  | nan
  | str (s : String)
  | bool (b : Bool)
  | null
  | undefined
  | arr (elems : List JSVal)
  | obj (fields : List (String × JSVal))

/-- Property access `v?.k`: looks the key up in an object, yields
`undefined` on every other value (matching optional chaining on
`null`/`undefined` and absent properties). -/
def JSVal.get : JSVal → String → JSVal
  | .obj fields, k =>
    match fields.lookup k with
    | some v => v
    | none => .undefined
  | _, _ => .undefined

/-- `v == null` in the source's loose-equality tests: true exactly for
`null` and `undefined`. -/
def JSVal.nullish : JSVal → Bool
  | .null => true
  | .undefined => true
  | _ => false

/-- The nullish-coalescing operator `a ?? b`. -/
def JSVal.coalesce (a b : JSVal) : JSVal :=
  if a.nullish then b else a

/-- JavaScript truthiness, used by `if (!candidate)` and the `||` chains. -/
def JSVal.truthy : JSVal → Bool
  | .num q => q ≠ 0
  | .nan => false
  | .str s => s ≠ ""
  | .bool b => b
  | .null => false
  | .undefined => false
  | .arr _ => true
  | .obj _ => true

/-- The logical-or operator `a || b` on values. -/
def JSVal.jsOr (a b : JSVal) : JSVal :=
  if a.truthy then a else b

/-- Index access `v?.[i]`: array element, object property under the
decimal key, single character of a string; `undefined` otherwise. -/
def JSVal.idx : JSVal → Nat → JSVal
  | .arr elems, i => elems.getD i .undefined
  | .obj fields, i => (JSVal.obj fields).get (toString i)
  | .str s, i =>
    match s.toList.get? i with
    | some c => .str (String.mk [c])
    | none => .undefined
  | _, _ => .undefined

/-- `Array.isArray`. -/
def JSVal.isArray : JSVal → Bool
  | .arr _ => true
  | _ => false

/-- `typeof v === 'number'` (true for NaN as well). -/
def JSVal.typeofNumber : JSVal → Bool
  | .num _ => true
  | .nan => true
  | _ => false

/-- `typeof v === 'number' && !Number.isNaN(v)`: the finite-number test
the source applies before using a value as a coordinate. -/
def JSVal.toFinite? : JSVal → Option ℚ
  | .num q => some q
  | _ => none

/-- Partial model of JavaScript ToNumber used by `-` and `Math.max`:
finite numbers stay themselves, booleans map to 0/1 and `null` to 0;
strings, arrays, objects, `undefined` and NaN are treated as NaN
(numeric-string coercion is not modelled). -/
def JSVal.toNumberArith : JSVal → Option ℚ
  | .num q => some q
  | .bool b => some (if b then 1 else 0)
  | .null => some 0
  | _ => none

/-- The subtraction `x2 - x` in `extractBoxFromCandidate`. -/
def jsSub (a b : JSVal) : JSVal :=
  match a.toNumberArith, b.toNumberArith with
  | some p, some q => .num (p - q)
  | _, _ => .nan

/-- `Math.max(v, 0)` applied to the raw width/height in `normalizeBBox`. -/
def jsMaxZero (v : JSVal) : JSVal :=
  match v.toNumberArith with
  | some q => .num (max q 0)
  | none => .nan

/-- `Math.min(Math.max(q, 0), 1)`. -/
def clamp01 (q : ℚ) : ℚ := min (max q 0) 1

/-- The frame size handed to `normalizeValue`; the source passes the raw
payload fields through unchecked, so both components are JS values. -/
structure FrameSize where
  width : JSVal
  height : JSVal

/-- `const DEFAULT_FRAME_DIMENSION = 1`. -/
def DEFAULT_FRAME_DIMENSION : JSVal := .num 1

/-- The width/height fallback chain of `inferFrameSize` when no usable
`resolution` array is present. -/
def inferFrameSizeFallback (source : JSVal) : FrameSize :=
  { width :=
      (source.get "frame_width").coalesce
        ((source.get "image_width").coalesce
          ((source.get "width").coalesce DEFAULT_FRAME_DIMENSION)),
    height :=
      (source.get "frame_height").coalesce
        ((source.get "image_height").coalesce
          ((source.get "height").coalesce DEFAULT_FRAME_DIMENSION)) }

/-- `inferFrameSize` from DeviceInfo.jsx: prefer a `resolution` array of
length ≥ 2, else discrete width/height fields, else the unit frame. -/
def inferFrameSize (source : JSVal) : FrameSize :=
  match source.get "resolution" with
  | .arr elems =>
    if 2 ≤ elems.length then
      { width := elems.getD 0 .undefined, height := elems.getD 1 .undefined }
    else inferFrameSizeFallback source
  | _ => inferFrameSizeFallback source

/-- `const safeDimension = typeof dimension === 'number' && dimension > 0
? dimension : DEFAULT_FRAME_DIMENSION` (NaN fails `> 0`). -/
def safeDim (dimension : JSVal) : ℚ :=
  match dimension with
  | .num d => if 0 < d then d else 1
  | _ => 1

/-- `normalizeValue` from DeviceInfo.jsx.  A non-number or NaN value
yields `null`; otherwise the value is divided by the reference dimension
when that dimension exceeds 1, and clamped into [0,1].  The source's
final two branches are textually identical; they are kept as written. -/
def normalizeValue (value dimension : JSVal) : Option ℚ :=
  match value with
  | .num q =>
    if 1 < safeDim dimension then some (clamp01 (q / safeDim dimension))
    else if q ≤ 1 then some (clamp01 q)
    else some (clamp01 q)
  | _ => none

/-- A raw (pre-normalization) bounding box; its fields are whatever JS
values the extraction produced. -/
structure RawBBox where
  x : JSVal
  y : JSVal
  width : JSVal
  height : JSVal

/-- A normalized box, all coordinates rational. -/
structure NBox where
  x : ℚ
  y : ℚ
  width : ℚ
  height : ℚ

/-- `normalizeBBox` from DeviceInfo.jsx: width and height pass through
`Math.max(·, 0)` first, x and y do not; if any of the four components
fails `normalizeValue`, the whole box is rejected. -/
def normalizeBBox (bbox : Option RawBBox) (frameSize : FrameSize) : Option NBox :=
  match bbox with
  | none => none
  | some b =>
    match normalizeValue b.x frameSize.width,
          normalizeValue b.y frameSize.height,
          normalizeValue (jsMaxZero b.width) frameSize.width,
          normalizeValue (jsMaxZero b.height) frameSize.height with
    | some x, some y, some w, some h => some ⟨x, y, w, h⟩
    | _, _, _, _ => none

/-- `extractBoxFromCandidate` from DeviceInfo.jsx. -/
def extractBoxFromCandidate (candidate : JSVal) : Option RawBBox :=
  if ¬ candidate.truthy then none
  else
    match (candidate.get "bbox").coalesce
        ((candidate.get "box").coalesce
          ((candidate.get "rect").coalesce
            ((candidate.get "region").coalesce candidate))) with
    | .arr elems =>
      if 4 ≤ elems.length ∧ (elems.take 4).all JSVal.typeofNumber then
        some ⟨elems.getD 0 .undefined, elems.getD 1 .undefined,
              elems.getD 2 .undefined, elems.getD 3 .undefined⟩
      else none
    | .obj fields =>
      let src := JSVal.obj fields
      let x := (src.get "x").coalesce ((src.get "left").coalesce
        ((src.get "x_min").coalesce ((src.get "x1").coalesce
          ((src.get "cx").coalesce (src.get "center_x")))))
      let y := (src.get "y").coalesce ((src.get "top").coalesce
        ((src.get "y_min").coalesce ((src.get "y1").coalesce
          ((src.get "cy").coalesce (src.get "center_y")))))
      let width0 := (src.get "width").coalesce (src.get "w")
      let height0 := (src.get "height").coalesce (src.get "h")
      let x2 := (src.get "x2").coalesce ((src.get "x_max").coalesce (src.get "right"))
      let y2 := (src.get "y2").coalesce ((src.get "y_max").coalesce (src.get "bottom"))
      let width := if ¬ x.nullish ∧ width0.nullish ∧ ¬ x2.nullish then jsSub x2 x else width0
      let height := if ¬ y.nullish ∧ height0.nullish ∧ ¬ y2.nullish then jsSub y2 y else height0
      if (x.toFinite?).isSome ∧ (y.toFinite?).isSome ∧
          (width.toFinite?).isSome ∧ (height.toFinite?).isSome then
        some ⟨x, y, width, height⟩
      else none
    | _ => none

/-- One entry of the list `parseDetections` produces: the raw label and
confidence values from the payload and the normalized box. -/
structure Detection where
  label : JSVal
  confidence : JSVal
  box : NBox

/-- `Array.isArray(inference.boxes) ? inference.boxes : null`, with the
non-array case collapsed to the empty list (both lead to `[]`). -/
def boxesOf (inference : JSVal) : List JSVal :=
  match inference.get "boxes" with
  | .arr boxes => boxes
  | _ => []

/-- The per-entry bbox choice in `buildDetectionsFromInference`: a
4-element array is destructured positionally; any other object
(including shorter arrays) goes through `extractBoxFromCandidate`. -/
def bboxFromBoxEntry (box : JSVal) : Option RawBBox :=
  match box with
  | .arr elems =>
    if 4 ≤ elems.length then
      some ⟨elems.getD 0 .undefined, elems.getD 1 .undefined,
            elems.getD 2 .undefined, elems.getD 3 .undefined⟩
    else extractBoxFromCandidate (.arr elems)
  | .obj fields => extractBoxFromCandidate (.obj fields)
  | _ => none

/-- `(inference.labels?.[index]) || box?.label || box?.name ||
`object-${index + 1}`` from `buildDetectionsFromInference`. -/
def labelFromBoxEntry (inference box : JSVal) (index : Nat) : JSVal :=
  ((inference.get "labels").idx index).jsOr
    ((box.get "label").jsOr
      ((box.get "name").jsOr (.str ("object-" ++ toString (index + 1)))))

/-- `typeof box?.[4] === 'number' ? box[4] : box?.confidence ?? box?.score
?? null` from `buildDetectionsFromInference`.  Note the index is 4: with
the `[x, y, w, h, class_id, confidence]` tuples the repository's backend
documentation describes, this selects the class id, not the score. -/
def confidenceFromBoxEntry (box : JSVal) : JSVal :=
  if (box.idx 4).typeofNumber then box.idx 4
  else (box.get "confidence").coalesce ((box.get "score").coalesce .null)

/-- The callback of the `boxes.map(...)` in `buildDetectionsFromInference`
(the trailing `.filter(Boolean)` is fused in as `Option`). -/
def buildEntry (inference : JSVal) (frameSize : FrameSize) (index : Nat)
    (box : JSVal) : Option Detection :=
  match normalizeBBox (bboxFromBoxEntry box) frameSize with
  | none => none
  | some normalizedBox =>
    some ⟨labelFromBoxEntry inference box index, confidenceFromBoxEntry box,
          normalizedBox⟩

/-- `buildDetectionsFromInference` from DeviceInfo.jsx (the local
`boxes` variable is inlined as `boxesOf inference`). -/
def buildDetectionsFromInference (inference : JSVal) : List Detection :=
  if (boxesOf inference).isEmpty then []
  else (boxesOf inference).enum.filterMap fun p =>
    buildEntry inference (inferFrameSize inference) p.1 p.2

/-- The candidates list of `parseDetections`: the source itself if it is
an array, else its `detections` array, else its `objects` array, else
empty. -/
def candidatesOf (inferenceSource : JSVal) : List JSVal :=
  match inferenceSource with
  | .arr elems => elems
  | _ =>
    match inferenceSource.get "detections" with
    | .arr elems => elems
    | _ =>
      match inferenceSource.get "objects" with
      | .arr elems => elems
      | _ => []

/-- `candidate?.label ?? candidate?.name ?? candidate?.class ??
candidate?.category ?? `object-${index + 1}`` from `parseDetections`. -/
def labelFromCandidate (candidate : JSVal) (index : Nat) : JSVal :=
  (candidate.get "label").coalesce
    ((candidate.get "name").coalesce
      ((candidate.get "class").coalesce
        ((candidate.get "category").coalesce
          (.str ("object-" ++ toString (index + 1))))))

/-- `candidate?.confidence ?? candidate?.score ?? candidate?.probability
?? candidate?.confidence_score ?? null` from `parseDetections`. -/
def confidenceFromCandidate (candidate : JSVal) : JSVal :=
  (candidate.get "confidence").coalesce
    ((candidate.get "score").coalesce
      ((candidate.get "probability").coalesce
        ((candidate.get "confidence_score").coalesce .null)))

/-- The callback of the `candidates.map(...)` in `parseDetections`. -/
def candidateEntry (frameSize : FrameSize) (index : Nat)
    (candidate : JSVal) : Option Detection :=
  match normalizeBBox (extractBoxFromCandidate candidate) frameSize with
  | none => none
  | some normalizedBox =>
    some ⟨labelFromCandidate candidate index, confidenceFromCandidate candidate,
          normalizedBox⟩

/-- `parseDetections` from DeviceInfo.jsx: the structured boxes+labels
form is tried first; if it yields nothing, the per-detection object list
is used. -/
def parseDetections (inferenceSource : JSVal) : List Detection :=
  if ¬ inferenceSource.truthy then []
  else if ¬ (buildDetectionsFromInference inferenceSource).isEmpty then
    buildDetectionsFromInference inferenceSource
  else
    (candidatesOf inferenceSource).enum.filterMap fun p =>
      candidateEntry (inferFrameSize inferenceSource) p.1 p.2

/-! ## Viewer session reconnect model

The `useEffect` in `CameraView` (DeviceInfo.jsx) and `VideoStream`
(VideoStream.jsx) both run `connectWebSocket()` on mount, where
`ws.onclose` schedules `setTimeout(() => connectWebSocket(), 3000)`, and
return a cleanup that only calls `wsRef.current.close()`.  The timer id
is never stored and `clearTimeout` never called. -/

/-- The literal delay passed to `setTimeout` in the `onclose` handler. -/
def reconnectDelayMs : Nat := 3000

inductive SessionPhase where
  | connecting
  | opened
  | closed
deriving DecidableEq, Repr

structure SessionState where
  phase : SessionPhase
  /-- Number of scheduled, not yet fired `setTimeout(connectWebSocket, 3000)` timers. -/
  pendingReconnects : Nat
  /-- Delay of the most recently scheduled reconnect timer, if any. -/
  lastScheduledDelayMs : Option Nat
  /-- Whether the effect cleanup (session teardown) has run. -/
  tornDown : Bool
  /-- Whether a WebSocket object with live handlers currently exists. -/
  socketAlive : Bool
  totalAttempts : Nat
  /-- Connection attempts made after the cleanup ran. -/
  attemptsAfterTeardown : Nat
deriving DecidableEq, Repr

/-- The state before the effect body has run. -/
def idleSession : SessionState :=
  { phase := .closed, pendingReconnects := 0, lastScheduledDelayMs := none,
    tornDown := false, socketAlive := false, totalAttempts := 0,
    attemptsAfterTeardown := 0 }

/-- `connectWebSocket()`: constructs a new WebSocket and installs the
handlers.  The source contains no guard on whether the effect was
already cleaned up, so an attempt made after teardown is counted. -/
def connectWebSocket (s : SessionState) : SessionState :=
  { s with
    phase := .connecting
    socketAlive := true
    totalAttempts := s.totalAttempts + 1
    attemptsAfterTeardown :=
      s.attemptsAfterTeardown + (if s.tornDown then 1 else 0) }

inductive SessionEvent where
  | mount
  | wsOpen
  | wsClose
  | timerFire
  | teardown
deriving DecidableEq, Repr

/-- One step of the session: `mount` runs the effect body, `wsOpen` and
`wsClose` are the WebSocket handlers, `timerFire` is a scheduled
reconnect timer expiring, `teardown` is the effect cleanup.  `none`
means the event cannot occur in that state. -/
def sessionStep (s : SessionState) (e : SessionEvent) : Option SessionState :=
  match e with
  | .mount =>
    if s.totalAttempts = 0 ∧ ¬ s.tornDown then some (connectWebSocket s) else none
  | .wsOpen =>
    if s.socketAlive ∧ s.phase = .connecting then
      some { s with phase := .opened }
    else none
  | .wsClose =>
    if s.socketAlive then
      some { s with
             phase := .closed
             socketAlive := false
             pendingReconnects := s.pendingReconnects + 1
             lastScheduledDelayMs := some reconnectDelayMs }
    else none
  | .timerFire =>
    if 0 < s.pendingReconnects then
      some (connectWebSocket { s with pendingReconnects := s.pendingReconnects - 1 })
    else none
  | .teardown =>
    if ¬ s.tornDown then
      -- Cleanup is `if (wsRef.current) wsRef.current.close()`.  No
      -- clearTimeout: pendingReconnects is left untouched.
      some { s with tornDown := true }
    else none

/-- Run a sequence of events from a state. -/
def runSession (s : SessionState) : List SessionEvent → Option SessionState
  | [] => some s
  | e :: rest =>
    match sessionStep s e with
    | none => none
    | some s2 => runSession s2 rest

/-! ## Concrete payloads used by the claims -/

/-- The end-to-end detection payload of claim C1 (spec §8):
`{"boxes":[[100,50,40,40,0,0.91]],"labels":["person"],"resolution":[1280,720]}`. -/
def c1Payload : JSVal :=
  .obj [("boxes", .arr [.arr [.num 100, .num 50, .num 40, .num 40, .num 0,
                              .num (91/100)]]),
        ("labels", .arr [.str "person"]),
        ("resolution", .arr [.num 1280, .num 720])]

/-- Payload whose array box carries the out-of-range value 5 in the
position the code reads as confidence. -/
def c5Payload : JSVal :=
  .obj [("boxes", .arr [.arr [.num 0, .num 0, .num 1, .num 1, .num 5]])]

/-- The corner-form entry of claim C7:
`{"x1":10,"y1":10,"x2":110,"y2":60}`. -/
def c7Entry : JSVal :=
  .obj [("x1", .num 10), ("y1", .num 10), ("x2", .num 110), ("y2", .num 60)]

/-- Claim C7's payload: the corner-form entry in a `detections` list with
no resolution field. -/
def c7Payload : JSVal := .obj [("detections", .arr [c7Entry])]

/-- A corner-form object entry with symbolic coordinates, used for C10. -/
def cornerEntry (a b c d : ℚ) : JSVal :=
  .obj [("x1", .num a), ("y1", .num b), ("x2", .num c), ("y2", .num d)]

/-- Payload used by the C3 witness: one array box with out-of-range raw
coordinates and no resolution field. -/
def c3WitnessPayload : JSVal :=
  .obj [("boxes", .arr [.arr [.num (-5), .num 3, .num 10, .num 10]])]

/-- The detection the C3 witness payload produces. -/
def c3WitnessDetection : Detection :=
  ⟨.str "object-1", .null, ⟨0, 1, 1, 1⟩⟩

/-- The detection the C5 payload produces: confidence 5 passed through. -/
def c5Detection : Detection := ⟨.str "object-1", .num 5, ⟨0, 0, 1, 1⟩⟩

/-- Field list of a concrete center-form entry, for the C9 witness. -/
def c9Fields : List (String × JSVal) :=
  [("cx", .num 50), ("cy", .num 60), ("width", .num 10), ("height", .num 20)]

/-! ## Helper lemmas -/

theorem clamp01_nonneg (q : ℚ) : 0 ≤ clamp01 q :=
  le_min (le_max_right q 0) zero_le_one

theorem clamp01_le_one (q : ℚ) : clamp01 q ≤ 1 :=
  min_le_right _ _

theorem clamp01_of_mem {q : ℚ} (h0 : 0 ≤ q) (h1 : q ≤ 1) : clamp01 q = q := by
  rw [clamp01, max_eq_left h0, min_eq_left h1]

/-- Whatever `normalizeValue` returns is clamped into the unit interval. -/
theorem normalizeValue_bounds {value dimension : JSVal} {r : ℚ}
    (h : normalizeValue value dimension = some r) : 0 ≤ r ∧ r ≤ 1 := by
  cases value with
  | num q =>
    simp only [normalizeValue] at h
    split at h
    · cases h; exact ⟨clamp01_nonneg _, clamp01_le_one _⟩
    · split at h <;> (cases h; exact ⟨clamp01_nonneg _, clamp01_le_one _⟩)
  | nan => exact Option.noConfusion h
  | str s => exact Option.noConfusion h
  | bool b => exact Option.noConfusion h
  | null => exact Option.noConfusion h
  | undefined => exact Option.noConfusion h
  | arr es => exact Option.noConfusion h
  | obj fs => exact Option.noConfusion h

/-- A finite number always normalizes to something. -/
theorem normalizeValue_num_some (q : ℚ) (dimension : JSVal) :
    ∃ r, normalizeValue (.num q) dimension = some r := by
  simp only [normalizeValue]
  by_cases h1 : 1 < safeDim dimension
  · rw [if_pos h1]; exact ⟨_, rfl⟩
  · rw [if_neg h1]
    by_cases h2 : q ≤ 1
    · rw [if_pos h2]; exact ⟨_, rfl⟩
    · rw [if_neg h2]; exact ⟨_, rfl⟩

/-- Zero normalizes to zero whatever the reference dimension is. -/
theorem normalizeValue_num_zero (dimension : JSVal) :
    normalizeValue (.num 0) dimension = some 0 := by
  have hc : clamp01 0 = 0 := clamp01_of_mem le_rfl zero_le_one
  simp only [normalizeValue]
  by_cases h1 : 1 < safeDim dimension
  · rw [if_pos h1, zero_div, hc]
  · rw [if_neg h1, if_pos (zero_le_one (α := ℚ)), hc]

/-- With the unit frame, a value already in `[0,1]` is returned
unchanged. -/
theorem normalizeValue_num_unit {q : ℚ} (h0 : 0 ≤ q) (h1 : q ≤ 1) :
    normalizeValue (.num q) (.num 1) = some q := by
  have hs : safeDim (.num 1) = 1 := by simp [safeDim]
  simp only [normalizeValue, hs]
  rw [if_neg (lt_irrefl 1), if_pos h1, clamp01_of_mem h0 h1]

/-- With a reference dimension greater than one, `normalizeValue`
divides and clamps. -/
theorem normalizeValue_num_of_one_lt {d : ℚ} (hd : 1 < d) (q : ℚ) :
    normalizeValue (.num q) (.num d) = some (clamp01 (q / d)) := by
  have h0 : 0 < d := lt_trans one_pos hd
  have hs : safeDim (.num d) = d := by simp [safeDim, h0]
  simp only [normalizeValue, hs]
  rw [if_pos hd]

/-- Pre-clamping a numerator at zero is invisible after the final clamp,
for a positive divisor. -/
theorem clamp01_maxzero_div {d : ℚ} (hd : 0 < d) (q : ℚ) :
    clamp01 (max q 0 / d) = clamp01 (q / d) := by
  rcases le_total 0 q with h | h
  · rw [max_eq_left h]
  · have h1 : q / d ≤ 0 := div_nonpos_iff.mpr (Or.inr ⟨h, hd.le⟩)
    rw [max_eq_right h, zero_div, clamp01, clamp01, max_eq_right h1, max_self]

/-- Any box `normalizeBBox` accepts has all four coordinates in `[0,1]`. -/
theorem normalizeBBox_bounds {bbox : Option RawBBox} {fs : FrameSize} {nb : NBox}
    (h : normalizeBBox bbox fs = some nb) :
    (0 ≤ nb.x ∧ nb.x ≤ 1) ∧ (0 ≤ nb.y ∧ nb.y ≤ 1) ∧
    (0 ≤ nb.width ∧ nb.width ≤ 1) ∧ (0 ≤ nb.height ∧ nb.height ≤ 1) := by
  cases bbox with
  | none => exact Option.noConfusion h
  | some b =>
    simp only [normalizeBBox] at h
    split at h
    · rename_i x y w hv hx hy hw hh
      cases h
      exact ⟨normalizeValue_bounds hx, normalizeValue_bounds hy,
             normalizeValue_bounds hw, normalizeValue_bounds hh⟩
    · exact Option.noConfusion h

/-- Inversion for the boxes-path entry constructor. -/
theorem buildEntry_inv {inference : JSVal} {fs : FrameSize} {i : Nat}
    {box : JSVal} {d : Detection} (h : buildEntry inference fs i box = some d) :
    normalizeBBox (bboxFromBoxEntry box) fs = some d.box ∧
    d.confidence = confidenceFromBoxEntry box := by
  unfold buildEntry at h
  rcases hn : normalizeBBox (bboxFromBoxEntry box) fs with _ | nb <;> rw [hn] at h
  · exact Option.noConfusion h
  · cases h; exact ⟨rfl, rfl⟩

/-- Inversion for the candidates-path entry constructor. -/
theorem candidateEntry_inv {fs : FrameSize} {i : Nat} {c : JSVal}
    {d : Detection} (h : candidateEntry fs i c = some d) :
    normalizeBBox (extractBoxFromCandidate c) fs = some d.box ∧
    d.confidence = confidenceFromCandidate c := by
  unfold candidateEntry at h
  rcases hn : normalizeBBox (extractBoxFromCandidate c) fs with _ | nb <;> rw [hn] at h
  · exact Option.noConfusion h
  · cases h; exact ⟨rfl, rfl⟩

/-- Every detection `parseDetections` returns descends from one entry of
the payload's `boxes` list or of its candidates list, with its box
accepted by `normalizeBBox` and its confidence taken verbatim by the
corresponding extraction chain. -/
theorem parseDetections_mem {p : JSVal} {d : Detection}
    (h : d ∈ parseDetections p) :
    (∃ box ∈ boxesOf p,
        normalizeBBox (bboxFromBoxEntry box) (inferFrameSize p) = some d.box ∧
        d.confidence = confidenceFromBoxEntry box) ∨
    (∃ c ∈ candidatesOf p,
        normalizeBBox (extractBoxFromCandidate c) (inferFrameSize p) = some d.box ∧
        d.confidence = confidenceFromCandidate c) := by
  unfold parseDetections at h
  split at h
  · exact absurd h (List.not_mem_nil d)
  · split at h
    · left
      unfold buildDetectionsFromInference at h
      split at h
      · exact absurd h (List.not_mem_nil d)
      · obtain ⟨a, ha, hea⟩ := List.mem_filterMap.mp h
        refine ⟨a.2, ?_, ?_, ?_⟩
        · exact List.getElem?_mem (List.mem_enum_iff_getElem?.mp ha)
        · exact (buildEntry_inv hea).1
        · exact (buildEntry_inv hea).2
    · right
      obtain ⟨a, ha, hea⟩ := List.mem_filterMap.mp h
      refine ⟨a.2, ?_, ?_, ?_⟩
      · exact List.getElem?_mem (List.mem_enum_iff_getElem?.mp ha)
      · exact (candidateEntry_inv hea).1
      · exact (candidateEntry_inv hea).2

/-! ## Claims -/

/-- C1: on the payload
`{"boxes":[[100,50,40,40,0,0.91]],"labels":["person"],"resolution":[1280,720]}`
the normalizer returns exactly one detection with label `"person"` and box
`(5/64, 5/72, 1/32, 1/18)` — which round to `0.078, 0.069, 0.031, 0.056`
at 3 decimals, as the claim states — but its confidence is `0`, the
class id at index 4 of the tuple, not the score `0.91` at index 5 that
the claim (and the repository's own payload documentation) expects. -/
theorem c1_confidence_is_class_id_not_score :
    parseDetections c1Payload =
      [⟨.str "person", .num 0, ⟨5/64, 5/72, 1/32, 1/18⟩⟩] ∧
    JSVal.num 0 ≠ JSVal.num (91/100) := by
  constructor
  · have h : parseDetections c1Payload =
        [⟨.str "person", .num 0, ⟨clamp01 (100/1280), clamp01 (50/720),
          clamp01 (40/1280), clamp01 (40/720)⟩⟩] := rfl
    rw [h]
    norm_num [clamp01, min_def, max_def]
  · intro h
    injection h with h'
    exact absurd h' (by norm_num)

/-- C2: the first half of the claim holds — a transport close while the
session is open schedules exactly one reconnect with the fixed 3000 ms
delay — but the second half fails on the code: the cleanup never calls
`clearTimeout`, so after teardown in the Reconnecting state the pending
timer is still there and its expiry performs a new connection attempt
(`attemptsAfterTeardown = 1`), contradicting "no new connection attempt
is ever made after teardown". -/
theorem c2_reconnect_fires_after_teardown :
    ((runSession idleSession [.mount, .wsOpen, .wsClose]).map fun s =>
        (s.phase, s.pendingReconnects, s.lastScheduledDelayMs, s.tornDown)) =
      some (.closed, 1, some reconnectDelayMs, false) ∧
    ((runSession idleSession [.mount, .wsOpen, .wsClose, .teardown]).map fun s =>
        (s.pendingReconnects, s.tornDown)) = some (1, true) ∧
    ((runSession idleSession
        [.mount, .wsOpen, .wsClose, .teardown, .timerFire]).map fun s =>
        s.attemptsAfterTeardown) = some 1 :=
  ⟨rfl, rfl, rfl⟩

/-- C3: every detection the normalizer returns, on any payload, has all
four box coordinates within `[0,1]`. -/
theorem c3_box_in_unit_square (p : JSVal) (d : Detection)
    (h : d ∈ parseDetections p) :
    (0 ≤ d.box.x ∧ d.box.x ≤ 1) ∧ (0 ≤ d.box.y ∧ d.box.y ≤ 1) ∧
    (0 ≤ d.box.width ∧ d.box.width ≤ 1) ∧
    (0 ≤ d.box.height ∧ d.box.height ≤ 1) := by
  rcases parseDetections_mem h with ⟨box, _, hn, _⟩ | ⟨c, _, hn, _⟩ <;>
    exact normalizeBBox_bounds hn

/-- Witness for C3 at a payload whose raw coordinates (-5, 3, 10, 10)
are all out of range under the unit frame. -/
theorem c3_box_in_unit_square_witness :
    c3WitnessDetection ∈ parseDetections c3WitnessPayload ∧
    ((0 ≤ c3WitnessDetection.box.x ∧ c3WitnessDetection.box.x ≤ 1) ∧
     (0 ≤ c3WitnessDetection.box.y ∧ c3WitnessDetection.box.y ≤ 1) ∧
     (0 ≤ c3WitnessDetection.box.width ∧ c3WitnessDetection.box.width ≤ 1) ∧
     (0 ≤ c3WitnessDetection.box.height ∧ c3WitnessDetection.box.height ≤ 1)) := by
  have hm : c3WitnessDetection ∈ parseDetections c3WitnessPayload := by
    have h : parseDetections c3WitnessPayload = [c3WitnessDetection] := rfl
    rw [h]; exact List.mem_singleton_self _
  exact ⟨hm, c3_box_in_unit_square c3WitnessPayload c3WitnessDetection hm⟩

/-- C5 counterexample: on `{"boxes":[[0,0,1,1,5]]}` the returned
detection's confidence is the JS number 5 — neither `null` nor in
`[0,1]`. -/
theorem c5_confidence_not_validated :
    (parseDetections c5Payload).map Detection.confidence = [.num 5] ∧
    JSVal.num 5 ≠ JSVal.null ∧ ¬ ((5 : ℚ) ≤ 1) := by
  refine ⟨rfl, fun h => JSVal.noConfusion h, by norm_num⟩

/-- C5 amended: the confidence of every returned detection is copied
verbatim from the payload by one of the two extraction chains (array
index 4 when number-typed, else `confidence`/`score` for the boxes path;
`confidence`/`score`/`probability`/`confidence_score`, defaulting to
`null`, for the candidates path); it is never validated or clamped. -/
theorem c5_amended_confidence_passthrough (p : JSVal) (d : Detection)
    (h : d ∈ parseDetections p) :
    (∃ box ∈ boxesOf p, d.confidence = confidenceFromBoxEntry box) ∨
    (∃ c ∈ candidatesOf p, d.confidence = confidenceFromCandidate c) := by
  rcases parseDetections_mem h with ⟨box, hb, _, hc⟩ | ⟨c, hb, _, hc⟩
  · exact Or.inl ⟨box, hb, hc⟩
  · exact Or.inr ⟨c, hb, hc⟩

/-- Witness for the amended C5 at the concrete payload with confidence 5. -/
theorem c5_amended_confidence_passthrough_witness :
    c5Detection ∈ parseDetections c5Payload ∧
    ((∃ box ∈ boxesOf c5Payload,
        c5Detection.confidence = confidenceFromBoxEntry box) ∨
     (∃ c ∈ candidatesOf c5Payload,
        c5Detection.confidence = confidenceFromCandidate c)) := by
  have hm : c5Detection ∈ parseDetections c5Payload := by
    have h : parseDetections c5Payload = [c5Detection] := rfl
    rw [h]; exact List.mem_singleton_self _
  exact ⟨hm, c5_amended_confidence_passthrough c5Payload c5Detection hm⟩

/-- C6: the normalizer is total and returns at most one detection per
detection entry of the payload (entries of the `boxes` array plus
entries of the candidates list); failing entries are dropped, never
aborting the call. -/
theorem c6_output_length_le (p : JSVal) :
    (parseDetections p).length ≤ (boxesOf p).length + (candidatesOf p).length := by
  unfold parseDetections
  split
  · simp
  · split
    · unfold buildDetectionsFromInference
      split
      · simp
      · calc (List.filterMap _ (boxesOf p).enum).length
              ≤ (boxesOf p).enum.length := List.length_filterMap_le _ _
          _ = (boxesOf p).length := List.enum_length
          _ ≤ _ := Nat.le_add_right _ _
    · calc (List.filterMap _ (candidatesOf p).enum).length
            ≤ (candidatesOf p).enum.length := List.length_filterMap_le _ _
        _ = (candidatesOf p).length := List.enum_length
        _ ≤ _ := Nat.le_add_left _ _

/-- C7: the corner-form entry `{"x1":10,"y1":10,"x2":110,"y2":60}` is
extracted by subtraction to `(10, 10, 100, 50)` and, under the unit
frame of a resolution-free payload, clamps to the box `(1, 1, 1, 1)`
rather than being rejected. -/
theorem c7_corner_form_clamped :
    extractBoxFromCandidate c7Entry =
      some ⟨.num 10, .num 10, .num 100, .num 50⟩ ∧
    parseDetections c7Payload = [⟨.str "object-1", .null, ⟨1, 1, 1, 1⟩⟩] := by
  have hext : extractBoxFromCandidate c7Entry =
      some ⟨.num 10, .num 10, .num 100, .num 50⟩ := by
    have h : extractBoxFromCandidate c7Entry =
        some ⟨.num 10, .num 10, .num (110 - 10), .num (60 - 10)⟩ := rfl
    rw [h]; norm_num
  refine ⟨hext, ?_⟩
  have hce : candidateEntry (inferFrameSize c7Payload) 0 c7Entry =
      some ⟨.str "object-1", .null, ⟨1, 1, 1, 1⟩⟩ := by
    have hfs : inferFrameSize c7Payload = ⟨.num 1, .num 1⟩ := rfl
    rw [candidateEntry, hext, hfs]
    have hn : normalizeBBox (some ⟨.num 10, .num 10, .num 100, .num 50⟩)
        ⟨.num 1, .num 1⟩ =
        some ⟨clamp01 10, clamp01 10, clamp01 (max 100 0), clamp01 (max 50 0)⟩ := rfl
    rw [hn]
    norm_num [clamp01, min_def, max_def]
    exact ⟨rfl, rfl⟩
  have h0 : parseDetections c7Payload =
      List.filterMap (fun p => candidateEntry (inferFrameSize c7Payload) p.1 p.2)
        [(0, c7Entry)] := rfl
  rw [h0, List.filterMap_cons]
  simp [hce]

/-- C4: an all-numeric array box `[x,y,w,h]` under a payload resolution
`[W,H]` with `W,H > 1` normalizes to `(x/W, y/H, w/W, h/H)`, each
component clamped into `[0,1]`. -/
theorem c4_array_form_scaled (x y w h W H : ℚ) (hW : 1 < W) (hH : 1 < H) :
    normalizeBBox (some ⟨.num x, .num y, .num w, .num h⟩)
        (inferFrameSize (.obj [("resolution", .arr [.num W, .num H])])) =
      some ⟨clamp01 (x / W), clamp01 (y / H), clamp01 (w / W), clamp01 (h / H)⟩ := by
  have h0W : 0 < W := lt_trans one_pos hW
  have h0H : 0 < H := lt_trans one_pos hH
  have hfs : inferFrameSize (.obj [("resolution", .arr [.num W, .num H])]) =
      ⟨.num W, .num H⟩ := rfl
  rw [hfs]
  have hmw : jsMaxZero (JSVal.num w) = .num (max w 0) := rfl
  have hmh : jsMaxZero (JSVal.num h) = .num (max h 0) := rfl
  simp only [normalizeBBox, hmw, hmh,
    normalizeValue_num_of_one_lt hW, normalizeValue_num_of_one_lt hH,
    clamp01_maxzero_div h0W, clamp01_maxzero_div h0H]

/-- Witness for C4 at `[100,50,40,40]` under resolution `[1280,720]`. -/
theorem c4_array_form_scaled_witness :
    (1 : ℚ) < 1280 ∧ (1 : ℚ) < 720 ∧
    normalizeBBox (some ⟨.num 100, .num 50, .num 40, .num 40⟩)
        (inferFrameSize (.obj [("resolution", .arr [.num 1280, .num 720])])) =
      some ⟨clamp01 (100 / 1280), clamp01 (50 / 720),
            clamp01 (40 / 1280), clamp01 (40 / 720)⟩ :=
  ⟨by norm_num, by norm_num,
   c4_array_form_scaled 100 50 40 40 1280 720 (by norm_num) (by norm_num)⟩

/-- C8: a box already expressed in `[0,1]`, in a payload with no
resolution or width/height fields (hence the unit frame), passes through
normalization unchanged. -/
theorem c8_already_normalized_identity (x y w h : ℚ)
    (hx0 : 0 ≤ x) (hx1 : x ≤ 1) (hy0 : 0 ≤ y) (hy1 : y ≤ 1)
    (hw0 : 0 ≤ w) (hw1 : w ≤ 1) (hh0 : 0 ≤ h) (hh1 : h ≤ 1) :
    parseDetections (.obj [("boxes", .arr [.arr [.num x, .num y, .num w, .num h]])]) =
      [⟨.str "object-1", .null, ⟨x, y, w, h⟩⟩] := by
  have hnb : normalizeBBox (some ⟨.num x, .num y, .num w, .num h⟩)
      ⟨.num 1, .num 1⟩ = some ⟨x, y, w, h⟩ := by
    have hmw : jsMaxZero (JSVal.num w) = .num (max w 0) := rfl
    have hmh : jsMaxZero (JSVal.num h) = .num (max h 0) := rfl
    simp only [normalizeBBox, hmw, hmh, max_eq_left hw0, max_eq_left hh0,
      normalizeValue_num_unit hx0 hx1, normalizeValue_num_unit hy0 hy1,
      normalizeValue_num_unit hw0 hw1, normalizeValue_num_unit hh0 hh1]
  have hbbox : bboxFromBoxEntry (.arr [.num x, .num y, .num w, .num h]) =
      some ⟨.num x, .num y, .num w, .num h⟩ := rfl
  have hbe : buildEntry (.obj [("boxes", .arr [.arr [.num x, .num y, .num w, .num h]])])
      ⟨.num 1, .num 1⟩ 0 (.arr [.num x, .num y, .num w, .num h]) =
      some ⟨.str "object-1", .null, ⟨x, y, w, h⟩⟩ := by
    simp only [buildEntry, hbbox, hnb]
    rfl
  have hfs : inferFrameSize
      (.obj [("boxes", .arr [.arr [.num x, .num y, .num w, .num h]])]) =
      ⟨.num 1, .num 1⟩ := rfl
  have hbd : buildDetectionsFromInference
      (.obj [("boxes", .arr [.arr [.num x, .num y, .num w, .num h]])]) =
      [⟨.str "object-1", .null, ⟨x, y, w, h⟩⟩] := by
    show List.filterMap _ (List.enum (boxesOf _)) = _
    have henum : (boxesOf
        (.obj [("boxes", .arr [.arr [.num x, .num y, .num w, .num h]])])).enum =
        [(0, .arr [.num x, .num y, .num w, .num h])] := rfl
    rw [henum, List.filterMap_cons]
    simp only [hfs, hbe, List.filterMap_nil]
  show (if ¬ (buildDetectionsFromInference _).isEmpty then _ else _) = _
  rw [hbd]
  rfl

/-- Witness for C8 at the already-normalized box `(1/2, 1/4, 1/4, 1/8)`. -/
theorem c8_already_normalized_identity_witness :
    ((0 : ℚ) ≤ 1/2 ∧ (1/2 : ℚ) ≤ 1) ∧ ((0 : ℚ) ≤ 1/4 ∧ (1/4 : ℚ) ≤ 1) ∧
    ((0 : ℚ) ≤ 1/8 ∧ (1/8 : ℚ) ≤ 1) ∧
    parseDetections (.obj [("boxes",
        .arr [.arr [.num (1/2), .num (1/4), .num (1/4), .num (1/8)]])]) =
      [⟨.str "object-1", .null, ⟨1/2, 1/4, 1/4, 1/8⟩⟩] :=
  ⟨⟨by norm_num, by norm_num⟩, ⟨by norm_num, by norm_num⟩,
   ⟨by norm_num, by norm_num⟩,
   c8_already_normalized_identity (1/2) (1/4) (1/4) (1/8)
     (by norm_num) (by norm_num) (by norm_num) (by norm_num)
     (by norm_num) (by norm_num) (by norm_num) (by norm_num)⟩

/-- C9: an object entry exposing `cx`/`cy` with `width`/`height` and
none of the corner aliases uses `cx` and `cy` directly as the top-left
corner — the code performs no center-to-corner conversion. -/
theorem c9_center_used_as_corner (fields : List (String × JSVal)) (cx cy w h : ℚ)
    (hbb : (JSVal.obj fields).get "bbox" = .undefined)
    (hbx : (JSVal.obj fields).get "box" = .undefined)
    (hrc : (JSVal.obj fields).get "rect" = .undefined)
    (hrg : (JSVal.obj fields).get "region" = .undefined)
    (hx : (JSVal.obj fields).get "x" = .undefined)
    (hl : (JSVal.obj fields).get "left" = .undefined)
    (hxm : (JSVal.obj fields).get "x_min" = .undefined)
    (hx1 : (JSVal.obj fields).get "x1" = .undefined)
    (hy : (JSVal.obj fields).get "y" = .undefined)
    (ht : (JSVal.obj fields).get "top" = .undefined)
    (hym : (JSVal.obj fields).get "y_min" = .undefined)
    (hy1 : (JSVal.obj fields).get "y1" = .undefined)
    (hcx : (JSVal.obj fields).get "cx" = .num cx)
    (hcy : (JSVal.obj fields).get "cy" = .num cy)
    (hw : (JSVal.obj fields).get "width" = .num w)
    (hh : (JSVal.obj fields).get "height" = .num h) :
    extractBoxFromCandidate (.obj fields) =
      some ⟨.num cx, .num cy, .num w, .num h⟩ := by
  simp [extractBoxFromCandidate, JSVal.truthy, JSVal.coalesce, JSVal.nullish,
    hbb, hbx, hrc, hrg, hx, hl, hxm, hx1, hcx, hy, ht, hym, hy1, hcy, hw, hh,
    JSVal.toFinite?]

/-- Witness for C9 at the concrete entry
`{"cx":50,"cy":60,"width":10,"height":20}`. -/
theorem c9_center_used_as_corner_witness :
    (JSVal.obj c9Fields).get "x" = .undefined ∧
    (JSVal.obj c9Fields).get "cx" = .num 50 ∧
    extractBoxFromCandidate (.obj c9Fields) =
      some ⟨.num 50, .num 60, .num 10, .num 20⟩ :=
  ⟨rfl, rfl,
   c9_center_used_as_corner c9Fields 50 60 10 20 rfl rfl rfl rfl rfl rfl rfl rfl
     rfl rfl rfl rfl rfl rfl rfl rfl⟩

/-- C10: a corner pair with `x2 < x1` yields a negative extracted width,
which `normalizeBBox` clamps to zero via `Math.max(width, 0)` — the
entry is kept with a zero-width box, not dropped. -/
theorem c10_negative_size_clamped (a b c d : ℚ) (fs : FrameSize) (hlt : c < a) :
    extractBoxFromCandidate (cornerEntry a b c d) =
      some ⟨.num a, .num b, .num (c - a), .num (d - b)⟩ ∧
    c - a < 0 ∧
    ∃ nb, normalizeBBox (extractBoxFromCandidate (cornerEntry a b c d)) fs =
        some nb ∧ nb.width = 0 := by
  have hext : extractBoxFromCandidate (cornerEntry a b c d) =
      some ⟨.num a, .num b, .num (c - a), .num (d - b)⟩ := rfl
  refine ⟨hext, sub_neg.mpr hlt, ?_⟩
  obtain ⟨rx, hrx⟩ := normalizeValue_num_some a fs.width
  obtain ⟨ry, hry⟩ := normalizeValue_num_some b fs.height
  obtain ⟨rh, hrh⟩ := normalizeValue_num_some (max (d - b) 0) fs.height
  have hmw : jsMaxZero (JSVal.num (c - a)) = .num (max (c - a) 0) := rfl
  have hmh : jsMaxZero (JSVal.num (d - b)) = .num (max (d - b) 0) := rfl
  have hmax : max (c - a) 0 = 0 := max_eq_right (le_of_lt (sub_neg.mpr hlt))
  refine ⟨⟨rx, ry, 0, rh⟩, ?_, rfl⟩
  rw [hext]
  simp only [normalizeBBox, hmw, hmh, hmax, hrx, hry, hrh,
    normalizeValue_num_zero]

/-- Witness for C10 at the corner entry
`{"x1":10,"y1":10,"x2":4,"y2":60}` under the unit frame. -/
theorem c10_negative_size_clamped_witness :
    (4 : ℚ) < 10 ∧
    (extractBoxFromCandidate (cornerEntry 10 10 4 60) =
        some ⟨.num 10, .num 10, .num (4 - 10), .num (60 - 10)⟩ ∧
      (4 : ℚ) - 10 < 0 ∧
      ∃ nb, normalizeBBox (extractBoxFromCandidate (cornerEntry 10 10 4 60))
          ⟨.num 1, .num 1⟩ = some nb ∧ nb.width = 0) :=
  ⟨by norm_num, c10_negative_size_clamped 10 10 4 60 ⟨.num 1, .num 1⟩ (by norm_num)⟩

end VideoBase
